import Mathlib

/-!
Verification development for the `whatsapp_analyzer` pattern-detection and
scoring engine (`src/whatsapp_analyzer/pattern_detectors.py` and
`src/whatsapp_analyzer/scientific_scoring.py`).

The Python code classifies chat messages with case-insensitive regular
expressions organised into fixed pattern families, aggregates the per-message
matches over a conversation (tracking an "in-conflict" decay state), and rolls
four dimension scores into an overall health score.

The embedding below is a shallow one:

* a small executable regular-expression interpreter (`Rx`, `rxRun`) covering
  exactly the constructs used by the Python pattern lists (literals, `\b`,
  `\s`, `.`&#x2d;star, alternation, option, plus, `$`, negative lookahead),
  evaluated case-insensitively like `re.IGNORECASE`;
* every pattern list of `pattern_detectors.py` transcribed constructor by
  constructor;
* the detector, analyzer and scorer functions translated statement by
  statement, with Python floats modelled as `ℚ`, `None` as `Option`, and the
  one raising code path modelled with `Except`.

Fields of `PatternMatch` that no claim mentions (`evidence`, `antidote`,
`sender`, `timestamp`, `message_id`, `message_text`) are omitted from the
record; they are write-only metadata filled with constants or the matched
substring and are never read by any of the code under verification.
-/

namespace Navi

/-! ## Character helpers (Python `re.IGNORECASE`, `\w`, `\s`, `str.strip`) -/

/-- Lower-casing as Python's case-insensitive matching sees the characters
appearing in the pattern lists: ASCII letters plus the Latin accented letters
used in the Portuguese patterns. -/
def charLower (c : Char) : Char :=
  if 'A' ≤ c ∧ c ≤ 'Z' then Char.ofNat (c.toNat + 32)
  else if c = 'Á' then 'á'
  else if c = 'À' then 'à'
  else if c = 'Â' then 'â'
  else if c = 'Ã' then 'ã'
  else if c = 'Ç' then 'ç'
  else if c = 'É' then 'é'
  else if c = 'Ê' then 'ê'
  else if c = 'Í' then 'í'
  else if c = 'Ó' then 'ó'
  else if c = 'Ô' then 'ô'
  else if c = 'Õ' then 'õ'
  else if c = 'Ú' then 'ú'
  else c

/-- Word characters for `\b`: ASCII `\w` plus the accented letters occurring
in the pattern lists and test texts. -/
def isWordChar (c : Char) : Bool :=
  c.isAlphanum || c = '_' ||
    (charLower c) ∈ ['á', 'à', 'â', 'ã', 'ç', 'é', 'ê', 'í', 'ó', 'ô', 'õ', 'ú']

/-- Whitespace for `\s` and `str.strip` (ASCII whitespace). -/
def isPySpace (c : Char) : Bool :=
  c = ' ' || c = '\t' || c = '\n' || c = '\r' || c = '\x0b' || c = '\x0c'

/-- Python `str.strip()`. -/
def pyStrip (s : String) : String :=
  String.mk ((((s.data.dropWhile isPySpace).reverse.dropWhile isPySpace).reverse))

/-! ## A small regular-expression interpreter

Just the constructs used by the pattern lists in `pattern_detectors.py`:
literal characters, concatenation, alternation, `?`, `*`, `+`, `\s`, `.`,
`\b`, `$`, and negative lookahead `(?!...)`.  Character classes appearing in
the source (`[oa]`, `[-\s]`) are encoded as alternations, which is
semantically identical. -/

inductive Rx where
  | eps : Rx
  | lit : Char → Rx
  | anyc : Rx
  | ws : Rx
  | seq : Rx → Rx → Rx
  | alt : Rx → Rx → Rx
  | opt : Rx → Rx
  | star : Rx → Rx
  | plus : Rx → Rx
  | wb : Rx
  | eol : Rx
  | nla : Rx → Rx
deriving Repr

/-- Is position `i` in `cs` on a word character (out of range counts as no)? -/
def wordAt (cs : List Char) (i : Nat) : Bool :=
  match cs[i]? with
  | some c => isWordChar c
  | none => false

/-- Running `rxRun cs fuel r i` returns the list of end positions of matches of `r`
starting at position `i` of `cs`.  Matching is case-insensitive (input
characters are lowered with `charLower`; pattern literals are written in lower
case).  `fuel` bounds the recursion depth and is chosen large enough at every
call site (`rxFuel`). -/
def rxRun (cs : List Char) : Nat → Rx → Nat → List Nat
  | 0, _, _ => []
  | _ + 1, .eps, i => [i]
  | _ + 1, .lit c, i =>
      match cs[i]? with
      | some d => if charLower d = c then [i + 1] else []
      | none => []
  | _ + 1, .anyc, i =>
      match cs[i]? with
      | some d => if d = '\n' then [] else [i + 1]
      | none => []
  | _ + 1, .ws, i =>
      match cs[i]? with
      | some d => if isPySpace d then [i + 1] else []
      | none => []
  | f + 1, .seq a b, i => ((rxRun cs f a i).map (rxRun cs f b)).flatten
  | f + 1, .alt a b, i => rxRun cs f a i ++ rxRun cs f b i
  | f + 1, .opt a, i => i :: rxRun cs f a i
  | f + 1, .star a, i =>
      i :: (((rxRun cs f a i).filter (fun j => i < j)).map (rxRun cs f (.star a))).flatten
  | f + 1, .plus a, i => rxRun cs f (.seq a (.star a)) i
  | _ + 1, .wb, i =>
      let before := if i = 0 then false else wordAt cs (i - 1)
      if before ≠ wordAt cs i then [i] else []
  | _ + 1, .eol, i => if i = cs.length then [i] else []
  | f + 1, .nla a, i => if (rxRun cs f a i).isEmpty then [i] else []

/-- Fuel bound that is generous for all the finite patterns involved. -/
def rxFuel (cs : List Char) : Nat := 2 * cs.length + 300

/-- Python `pattern.search(text)`: does `r` match anywhere in `s`? -/
def rxSearch (r : Rx) (s : String) : Bool :=
  let cs := s.data
  (List.range (cs.length + 1)).any (fun i => !(rxRun cs (rxFuel cs) r i).isEmpty)

/-- Python `pattern.match(text)`: does `r` match at the start of `s`? -/
def rxMatch0 (r : Rx) (s : String) : Bool :=
  let cs := s.data
  !(rxRun cs (rxFuel cs) r 0).isEmpty

/-! Builders for transcribing the Python patterns. -/

/-- A sequence of literal characters. -/
def rlit (s : String) : Rx := s.data.foldr (fun c acc => .seq (.lit c) acc) .eps

/-- Concatenation of a list of regexes. -/
def rseq (l : List Rx) : Rx := l.foldr .seq .eps

/-- Alternation of a list of regexes (`(?:a|b|c)`). -/
def ralt : List Rx → Rx
  | [] => .eps
  | [r] => r
  | r :: rest => .alt r (ralt rest)

/-- Pattern `\bphrase\b` — by far the most common pattern shape in the source. -/
def bword (s : String) : Rx := rseq [.wb, rlit s, .wb]

/-- Pattern `\s+`. -/
def ws1 : Rx := .plus .ws

/-- Pattern `\s*`. -/
def ws0 : Rx := .star .ws

/-- Pattern `.*`. -/
def dotstar : Rx := .star .anyc

/-- Pattern `[oa]`. -/
def clsOA : Rx := .alt (.lit 'o') (.lit 'a')

/-! ## The pattern registry

Transcriptions of the regex lists of `pattern_detectors.py`, in source order.
Each Lean list entry corresponds one-to-one to a Python pattern string; the
original pattern is quoted in a comment when its shape is not a plain
`\bphrase\b`. -/

/-- Embeds `GottmanPatternDetector.CRITICISM_PATTERNS` -/
def CRITICISM_PATTERNS : List Rx :=
  [ bword "você sempre",
    bword "você nunca",
    bword "por que você não",
    -- \bvocê é\s+(?:tão\s+)?(?:preguiçoso|incompetente|burro|idiota|irresponsável)\b
    rseq [.wb, rlit "você é", ws1, .opt (rseq [rlit "tão", ws1]),
          ralt [rlit "preguiçoso", rlit "incompetente", rlit "burro",
                rlit "idiota", rlit "irresponsável"], .wb],
    -- \bvocê só\s+(?:pensa|liga|quer)\b
    rseq [.wb, rlit "você só", ws1, ralt [rlit "pensa", rlit "liga", rlit "quer"], .wb],
    -- \bvocê não\s+(?:faz|ajuda|colabora)\s+nada\b
    rseq [.wb, rlit "você não", ws1, ralt [rlit "faz", rlit "ajuda", rlit "colabora"],
          ws1, rlit "nada", .wb],
    bword "o problema é você",
    bword "sempre a mesma coisa com você",
    bword "você não muda",
    bword "cansei de você",
    bword "você não se importa",
    bword "você é impossível" ]

/-- Embeds `GottmanPatternDetector.CONTEMPT_PATTERNS` -/
def CONTEMPT_PATTERNS : List Rx :=
  [ bword "grande coisa",
    bword "tanto faz",
    bword "que seja",
    -- \bfoda[-\s]?se\b
    rseq [.wb, rlit "foda", .opt (.alt (.lit '-') .ws), rlit "se", .wb],
    bword "como quiser",
    -- \bobviamente\b(?!.*obrigad)
    rseq [.wb, rlit "obviamente", .wb, .nla (rseq [dotstar, rlit "obrigad"])],
    -- \bclaro que\s+(?:não|sim)\b
    rseq [.wb, rlit "claro que", ws1, ralt [rlit "não", rlit "sim"], .wb],
    -- \bparabéns\b(?!.*aniversário|conquista)
    rseq [.wb, rlit "parabéns", .wb,
          .nla (ralt [rseq [dotstar, rlit "aniversário"], rlit "conquista"])],
    bword "que surpresa",
    -- \bvocê acha\s+(?:mesmo|que)\b.*\?
    rseq [.wb, rlit "você acha", ws1, ralt [rlit "mesmo", rlit "que"], .wb,
          dotstar, .lit '?'],
    rlit "🙄",
    bword "você é patético",
    bword "que piada",
    bword "ai ai ai",
    bword "tá bom né" ]

/-- Embeds `GottmanPatternDetector.DEFENSIVENESS_PATTERNS` -/
def DEFENSIVENESS_PATTERNS : List Rx :=
  [ bword "mas você também",
    bword "não é minha culpa",
    bword "eu não fiz nada",
    -- \bvocê que\b.*(?:começou|fez|disse)
    rseq [.wb, rlit "você que", .wb, dotstar,
          ralt [rlit "começou", rlit "fez", rlit "disse"]],
    -- \be você\??\s*$
    rseq [.wb, rlit "e você", .opt (.lit '?'), ws0, .eol],
    bword "eu não tenho que",
    -- \bpor que eu\s+(?:tenho|deveria)\b
    rseq [.wb, rlit "por que eu", ws1, ralt [rlit "tenho", rlit "deveria"], .wb],
    bword "não sou eu",
    -- \beu sempre\s+(?:faço|ajudo)\b
    rseq [.wb, rlit "eu sempre", ws1, ralt [rlit "faço", rlit "ajudo"], .wb],
    bword "você está exagerando",
    bword "não foi isso que eu",
    bword "eu não disse isso",
    bword "não é bem assim" ]

/-- Embeds `GottmanPatternDetector.STONEWALLING_PHRASES` -/
def STONEWALLING_PHRASES : List Rx :=
  [ bword "tanto faz",
    bword "faz o que você quiser",
    bword "não quero falar",
    bword "me deixa",
    bword "esquece",
    -- \bchega\b$
    rseq [.wb, rlit "chega", .wb, .eol],
    -- \bok\b$
    rseq [.wb, rlit "ok", .wb, .eol],
    -- \btá\b$
    rseq [.wb, rlit "tá", .wb, .eol],
    bword "sei lá",
    bword "preciso de um tempo" ]

/-- Embeds `PositivePatternDetector.REPAIR_PATTERNS` -/
def REPAIR_PATTERNS : List Rx :=
  [ bword "desculpa",
    bword "perdão",
    bword "me perdoa",
    -- \bnão quis\s+(?:dizer|fazer|magoar)\b
    rseq [.wb, rlit "não quis", ws1, ralt [rlit "dizer", rlit "fazer", rlit "magoar"], .wb],
    bword "foi mal",
    bword "eu errei",
    bword "você tem razão",
    bword "eu exagerei",
    bword "podemos recomeçar",
    bword "vamos tentar de novo",
    bword "não vamos brigar",
    -- \beu te amo\b.*(?:desculpa|perdão)
    rseq [.wb, rlit "eu te amo", .wb, dotstar, ralt [rlit "desculpa", rlit "perdão"]],
    bword "vamos resolver",
    -- 😅.*(?:desculpa|perdão)
    rseq [rlit "😅", dotstar, ralt [rlit "desculpa", rlit "perdão"]],
    bword "era brincadeira" ]

/-- Embeds `PositivePatternDetector.AFFECTION_PATTERNS` -/
def AFFECTION_PATTERNS : List Rx :=
  [ bword "te amo",
    bword "amo você",
    bword "saudade",
    bword "saudades",
    bword "te adoro",
    bword "meu amor",
    bword "querido",
    bword "querida",
    bword "fofo",
    bword "fofa",
    bword "lindo",
    bword "linda",
    bword "maravilhoso",
    bword "maravilhosa",
    rlit "❤️",
    rlit "💕",
    rlit "😘",
    rlit "😍",
    rlit "🥰",
    bword "te quero",
    bword "paixão" ]

/-- Embeds `PositivePatternDetector.GRATITUDE_PATTERNS` -/
def GRATITUDE_PATTERNS : List Rx :=
  [ -- \bobrigad[oa]\s+por\b
    rseq [.wb, rlit "obrigad", clsOA, ws1, rlit "por", .wb],
    -- \bmuito obrigad[oa]\b
    rseq [.wb, rlit "muito obrigad", clsOA, .wb],
    bword "agradeço",
    -- \bvaleu\s+(?:por|pela|pelo)\b
    rseq [.wb, rlit "valeu", ws1, ralt [rlit "por", rlit "pela", rlit "pelo"], .wb],
    bword "que bom que você",
    bword "você é o melhor",
    bword "você é a melhor",
    bword "não sei o que faria sem você",
    bword "sorte de ter você" ]

/-- Embeds `PositivePatternDetector.SUPPORT_PATTERNS` -/
def SUPPORT_PATTERNS : List Rx :=
  [ bword "estou aqui",
    bword "conte comigo",
    bword "posso ajudar",
    bword "o que você precisa",
    bword "estou com você",
    bword "vai ficar tudo bem",
    bword "você consegue",
    bword "acredito em você",
    bword "entendo",
    bword "que difícil",
    bword "sinto muito",
    bword "imagino como você",
    bword "deve ser difícil" ]

/-- Embeds `PositivePatternDetector.FUTURE_PLANNING_PATTERNS` -/
def FUTURE_PLANNING_PATTERNS : List Rx :=
  [ -- \bvamos\s+(?:fazer|planejar|marcar)\b
    rseq [.wb, rlit "vamos", ws1, ralt [rlit "fazer", rlit "planejar", rlit "marcar"], .wb],
    -- \bnosso\s+(?:plano|projeto|futuro)\b
    rseq [.wb, rlit "nosso", ws1, ralt [rlit "plano", rlit "projeto", rlit "futuro"], .wb],
    bword "quando a gente",
    bword "no futuro",
    bword "juntos",
    -- \bnossa\s+(?:casa|família|vida)\b
    rseq [.wb, rlit "nossa", ws1, ralt [rlit "casa", rlit "família", rlit "vida"], .wb],
    -- \bsonho\s+(?:nosso|com você)\b
    rseq [.wb, rlit "sonho", ws1, ralt [rlit "nosso", rlit "com você"], .wb],
    -- \bquero\s+(?:envelhecer|ficar|estar)\s+com você\b
    rseq [.wb, rlit "quero", ws1, ralt [rlit "envelhecer", rlit "ficar", rlit "estar"],
          ws1, rlit "com você", .wb] ]

/-- Embeds `PositivePatternDetector.ACTIVE_LISTENING_PATTERNS` -/
def ACTIVE_LISTENING_PATTERNS : List Rx :=
  [ bword "como foi",
    bword "me conta",
    bword "conte mais",
    -- \be aí\?
    rseq [.wb, rlit "e aí", .lit '?'],
    bword "o que aconteceu",
    bword "como você está",
    -- \btudo bem\?\s*$
    rseq [.wb, rlit "tudo bem", .lit '?', ws0, .eol],
    bword "quer conversar",
    bword "estou ouvindo",
    -- \bsério\?\s+(?:me conta|e aí)\b
    rseq [.wb, rlit "sério", .lit '?', ws1, ralt [rlit "me conta", rlit "e aí"], .wb] ]

/-- Embeds `PositivePatternDetector.DISCLOSURE_PATTERNS` -/
def DISCLOSURE_PATTERNS : List Rx :=
  [ bword "eu sinto",
    bword "estou com medo",
    bword "tenho medo",
    -- \bestou preocupad[oa]\b
    rseq [.wb, rlit "estou preocupad", clsOA, .wb],
    bword "me sinto",
    -- \bestou ansios[oa]\b
    rseq [.wb, rlit "estou ansios", clsOA, .wb],
    bword "estou triste",
    bword "estou feliz",
    bword "preciso te contar",
    bword "nunca contei",
    -- \bpra ser honest[oa]\b
    rseq [.wb, rlit "pra ser honest", clsOA, .wb],
    -- \bna verdade\b.*(?:sinto|penso|acho)\b
    rseq [.wb, rlit "na verdade", .wb, dotstar,
          ralt [rlit "sinto", rlit "penso", rlit "acho"], .wb] ]

/-- Embeds `PositivePatternDetector.UNDERSTANDING_PATTERNS` -/
def UNDERSTANDING_PATTERNS : List Rx :=
  [ bword "faz sentido",
    bword "entendo você",
    bword "te entendo",
    -- \bvocê está cert[oa]\b
    rseq [.wb, rlit "você está cert", clsOA, .wb],
    bword "concordo",
    bword "tem razão",
    bword "isso é válido",
    bword "é compreensível",
    bword "normal sentir" ]

/-- Embeds `PositivePatternDetector.ASSURANCE_PATTERNS` -/
def ASSURANCE_PATTERNS : List Rx :=
  [ bword "sempre vou",
    bword "nunca vou te deixar",
    bword "estou aqui pra você",
    bword "pode contar comigo",
    bword "vou te apoiar",
    bword "somos um time",
    bword "juntos nisso",
    bword "pra sempre",
    bword "não vou desistir" ]

/-- Embeds `ResponsivenessAnalyzer.EMOTIONAL_MARKERS` -/
def EMOTIONAL_MARKERS : List Rx :=
  [ -- \bestou\s+(?:triste|feliz|ansios[oa]|preocupad[oa]|nervos[oa]|com medo)\b
    rseq [.wb, rlit "estou", ws1,
          ralt [rlit "triste", rlit "feliz", rseq [rlit "ansios", clsOA],
                rseq [rlit "preocupad", clsOA], rseq [rlit "nervos", clsOA],
                rlit "com medo"], .wb],
    bword "me sinto",
    -- \bsinto\s+(?:falta|saudade|medo|raiva)\b
    rseq [.wb, rlit "sinto", ws1,
          ralt [rlit "falta", rlit "saudade", rlit "medo", rlit "raiva"], .wb],
    -- \bestou\s+(?:chorando|muito|tão)\b
    rseq [.wb, rlit "estou", ws1, ralt [rlit "chorando", rlit "muito", rlit "tão"], .wb],
    -- \bpreciso\s+(?:de você|conversar|desabafar)\b
    rseq [.wb, rlit "preciso", ws1,
          ralt [rlit "de você", rlit "conversar", rlit "desabafar"], .wb],
    bword "não aguento",
    bword "estou mal",
    bword "dia difícil",
    rlit "😢",
    rlit "😭",
    rlit "😔",
    rlit "😞" ]

/-- Embeds `ResponsivenessAnalyzer.DISMISSIVE_PATTERNS` (used with `pattern.match`
on the stripped text, so `^` is the start-of-string anchor of `rxMatch0`). -/
def DISMISSIVE_PATTERNS : List Rx :=
  [ rseq [rlit "ok", .eol],
    rseq [rlit "tá", .eol],
    -- ^hm+$
    rseq [.lit 'h', .plus (.lit 'm'), .eol],
    rseq [rlit "ah", .eol],
    rseq [rlit "entendi", .eol],
    rseq [rlit "sei", .eol],
    rseq [rlit "blz", .eol] ]

/-! ## Data model -/

/-- Embeds `pattern_detectors.PatternMatch`, restricted to the fields the verified
logic reads ( pattern_type, pattern_name, horseman, score_impact).  The
metadata fields `message_id`, `message_text`, `sender`, `timestamp`,
`antidote`, `evidence` are write-only in the source and omitted here. -/
structure PatternMatch where
  pattern_type : String
  pattern_name : String
  horseman : Option String := none
  score_impact : Int := 0
deriving DecidableEq, Repr

/-- Embeds `llm_analyzer.ContemptResult` (the Oracle's contempt verdict).
`confidence` is a Python float in [0,1], modelled as `ℚ`. -/
structure ContemptResult where
  is_contempt : Bool
  confidence : ℚ
  contempt_type : String
  severity : String
deriving DecidableEq, Repr

/-- Embeds `llm_analyzer.ResponseQuality` restricted to the fields read by
`analyze_message` (`overall_quality`, `is_dismissive`); the
understanding/validation/caring sub-scores are never read there. -/
structure ResponseQuality where
  overall_quality : ℚ
  is_dismissive : Bool
deriving DecidableEq, Repr

/-- Embeds `llm_analyzer.RepairResult` (the Oracle's repair-authenticity verdict). -/
structure RepairResult where
  is_genuine : Bool
  confidence : ℚ
  responsibility_level : String
  has_blame_shifting : Bool
deriving DecidableEq, Repr

/-- The LLM Classification Oracle (`llm_analyzer.LLMRelationshipAnalyzer`)
as used by `pattern_detectors.py`: three judgment operations on message text
plus context.  It is modelled as pure functions; a configured analyzer with
`use_llm=True` corresponds to `some oracle`, and `use_llm=False` or no
analyzer corresponds to `none`. -/
structure LLMOracle where
  detect_contempt : String → String → ContemptResult
  validate_repair_attempt : String → String → RepairResult
  assess_response_quality : String → String → ResponseQuality

/-! ## GottmanPatternDetector -/

/-- Embeds `GottmanPatternDetector.detect_criticism`.  The source loop returns on the
first matching pattern; since every pattern of the family produces the same
`PatternMatch` fields (up to the omitted `evidence`), this is the same as
testing whether any pattern matches. -/
def detect_criticism (text : String) : Option PatternMatch :=
  if CRITICISM_PATTERNS.any (fun p => rxSearch p text) then
    some { pattern_type := "negative", pattern_name := "criticism",
           horseman := some "criticism", score_impact := -5 }
  else none

/-- The map `severity_scores = {'mild': -5, 'moderate': -8, 'severe': -10}`
with `.get(severity, -8)` from `detect_contempt`. -/
def severity_scores (severity : String) : Int :=
  if severity = "mild" then -5
  else if severity = "moderate" then -8
  else if severity = "severe" then -10
  else -8

/-- Did any pattern of the contempt family match (Step 1 of
`detect_contempt`)? -/
def contempt_regex_matched (text : String) : Bool :=
  CONTEMPT_PATTERNS.any (fun p => rxSearch p text)

/-- Embeds `GottmanPatternDetector.detect_contempt`: regex baseline, then Oracle
reconciliation when an Oracle is configured (`use_llm`), then fallback to the
regex result. -/
def detect_contempt (llm : Option LLMOracle) (text : String) (context : String) :
    Option PatternMatch :=
  let regex_match := contempt_regex_matched text
  let fallback : Option PatternMatch :=
    if regex_match then
      some { pattern_type := "negative", pattern_name := "contempt",
             horseman := some "contempt", score_impact := -8 }
    else none
  match llm with
  | none => fallback
  | some o =>
      let r := LLMOracle.detect_contempt o text context
      -- thresholds 0.6 / 0.7 (written with `Rat.divInt` so that the kernel
      -- can evaluate them; `Rat.divInt 6 10 = 6/10`)
      if ContemptResult.is_contempt r ∧ ContemptResult.confidence r ≥ Rat.divInt 6 10 then
        some { pattern_type := "negative", pattern_name := "contempt",
               horseman := some "contempt",
               score_impact := severity_scores (ContemptResult.severity r) }
      else if regex_match ∧ ¬ ContemptResult.is_contempt r ∧
              ContemptResult.confidence r ≥ Rat.divInt 7 10 then
        none
      else fallback

/-- Embeds `GottmanPatternDetector.detect_defensiveness`. -/
def detect_defensiveness (text : String) : Option PatternMatch :=
  if DEFENSIVENESS_PATTERNS.any (fun p => rxSearch p text) then
    some { pattern_type := "negative", pattern_name := "defensiveness",
           horseman := some "defensiveness", score_impact := -4 }
  else none

/-- Python truthiness of `response_time_minutes and response_time_minutes > 120`
(`None` and `0.0` are falsy). -/
def delayOver120 (response_time_minutes : Option ℚ) : Bool :=
  match response_time_minutes with
  | none => false
  | some t => ¬ t = 0 ∧ t > 120

/-- Embeds `GottmanPatternDetector.detect_stonewalling`: withdrawal phrases first,
otherwise a long response delay (> 120 minutes) after a conflict. -/
def detect_stonewalling (text : String) (response_time_minutes : Option ℚ)
    (is_after_conflict : Bool) : Option PatternMatch :=
  if STONEWALLING_PHRASES.any (fun p => rxSearch p text) then
    some { pattern_type := "negative", pattern_name := "stonewalling",
           horseman := some "stonewalling", score_impact := -6 }
  else if is_after_conflict ∧ delayOver120 response_time_minutes then
    some { pattern_type := "negative", pattern_name := "stonewalling",
           horseman := some "stonewalling", score_impact := -6 }
  else none

/-- Embeds `GottmanPatternDetector.detect_all`: the four horsemen in source order. -/
def gottman_detect_all (llm : Option LLMOracle) (text : String)
    (response_time_minutes : Option ℚ) (is_after_conflict : Bool)
    (context : String) : List PatternMatch :=
  (detect_criticism text).toList ++
  (detect_contempt llm text context).toList ++
  (detect_defensiveness text).toList ++
  (detect_stonewalling text response_time_minutes is_after_conflict).toList

/-! ## PositivePatternDetector -/

/-- Embeds `PositivePatternDetector._detect_pattern`: generic positive family scan. -/
def detect_pattern (patterns : List Rx) (name : String) (score : Int)
    (text : String) : Option PatternMatch :=
  if patterns.any (fun p => rxSearch p text) then
    some { pattern_type := "positive", pattern_name := name,
           horseman := none, score_impact := score }
  else none

/-- Embeds `PositivePatternDetector.detect_repair_attempt`: regex detection, then
Oracle authenticity validation when configured. -/
def detect_repair_attempt (llm : Option LLMOracle) (text : String)
    (context : String) : Option PatternMatch :=
  match detect_pattern REPAIR_PATTERNS "repair_attempt" 5 text with
  | none => none
  | some regex_match =>
      match llm with
      | none => some regex_match
      | some o =>
          let r := LLMOracle.validate_repair_attempt o text context
          let score : Int :=
            -- threshold 0.6, written with `Rat.divInt` (see `detect_contempt`)
            if RepairResult.is_genuine r ∧ RepairResult.confidence r ≥ Rat.divInt 6 10 then
              if RepairResult.responsibility_level r = "full" then 7 else 5
            else if RepairResult.has_blame_shifting r then -2
            else 2
          some { pattern_type := if score > 0 then "positive" else "negative",
                 pattern_name := if score > 0 then "repair_attempt" else "fake_repair",
                 horseman := none, score_impact := score }

/-- Embeds `PositivePatternDetector.detect_all`: repair attempt (with context), then
the eight simple detectors in source order. -/
def positive_detect_all (llm : Option LLMOracle) (text : String)
    (context : String) : List PatternMatch :=
  (detect_repair_attempt llm text context).toList ++
  (detect_pattern AFFECTION_PATTERNS "affection" 3 text).toList ++
  (detect_pattern GRATITUDE_PATTERNS "gratitude" 3 text).toList ++
  (detect_pattern SUPPORT_PATTERNS "support" 4 text).toList ++
  (detect_pattern FUTURE_PLANNING_PATTERNS "future_planning" 3 text).toList ++
  (detect_pattern ACTIVE_LISTENING_PATTERNS "active_listening" 4 text).toList ++
  (detect_pattern DISCLOSURE_PATTERNS "disclosure" 4 text).toList ++
  (detect_pattern UNDERSTANDING_PATTERNS "understanding" 3 text).toList ++
  (detect_pattern ASSURANCE_PATTERNS "assurance" 4 text).toList

/-! ## ResponsivenessAnalyzer -/

/-- Embeds `ResponsivenessAnalyzer.is_emotional_message`. -/
def is_emotional_message (text : String) : Bool :=
  EMOTIONAL_MARKERS.any (fun p => rxSearch p text)

/-- Embeds `ResponsivenessAnalyzer.is_dismissive_response`: the stripped text matches
a one-word acknowledgment pattern, or is under 5 characters. -/
def is_dismissive_response (text : String) : Bool :=
  let t := pyStrip text
  DISMISSIVE_PATTERNS.any (fun p => rxMatch0 p t) || t.length < 5

/-! ## RelationshipPatternAnalyzer.analyze_message -/

/-- Computes `context_str = '\n'.join(context[-5:]) if context else (previous_message or "")`
from `analyze_message` (an empty context list is falsy in Python). -/
def context_string (previous_message : Option String)
    (context : Option (List String)) : String :=
  match context with
  | some l =>
      if l.isEmpty then (previous_message.getD "")
      else String.intercalate "\n" (l.drop (l.length - 5))
  | none => previous_message.getD ""

/-- The dismissive-response check of `analyze_message` (its final block):
fires when the previous message is truthy and emotional and the current text
is a dismissive/minimal response; with an Oracle the emission is additionally
gated on the Oracle's `is_dismissive` verdict and the score is −3 when the
Oracle's `overall_quality` is below 30, −2 otherwise. -/
def dismissive_part (llm : Option LLMOracle) (text : String)
    (previous_message : Option String) : List PatternMatch :=
  match previous_message with
  | none => []
  | some prev =>
      if ¬ prev = "" ∧ is_emotional_message prev ∧ is_dismissive_response text then
        match llm with
        | some o =>
            let q := LLMOracle.assess_response_quality o prev text
            if ResponseQuality.is_dismissive q then
              [{ pattern_type := "negative", pattern_name := "dismissive_response",
                 horseman := none,
                 score_impact :=
                   if ResponseQuality.overall_quality q < 30 then -3 else -2 }]
            else []
        | none =>
            [{ pattern_type := "negative", pattern_name := "dismissive_response",
               horseman := none, score_impact := -2 }]
      else []

/-- Embeds `RelationshipPatternAnalyzer.analyze_message`: Four Horsemen, then the
positive families, then the dismissive-response check. -/
def analyze_message (llm : Option LLMOracle) (text : String)
    (response_time_minutes : Option ℚ) (is_after_conflict : Bool)
    (previous_message : Option String) (context : Option (List String)) :
    List PatternMatch :=
  let context_str := context_string previous_message context
  gottman_detect_all llm text response_time_minutes is_after_conflict context_str ++
  positive_detect_all llm text context_str ++
  dismissive_part llm text previous_message

/-! ## RelationshipPatternAnalyzer.analyze_conversation -/

/-- One row of the conversation DataFrame, as read by the aggregation loop:
`sender` is unused by the verified logic and omitted. -/
structure Msg where
  message : String
  datetime : ℤ
deriving DecidableEq, Repr

/-- The four-key horsemen-count dict (`four_horsemen_counts`), initialised
with zeros for the four fixed keys. -/
structure HorsemenCounts where
  criticism : ℕ := 0
  contempt : ℕ := 0
  defensiveness : ℕ := 0
  stonewalling : ℕ := 0
deriving DecidableEq, Repr

/-- Dict bump `summary.four_horsemen_counts[h] += 1`.  The verified matches only ever
carry one of the four fixed keys (claim C10), so the catch-all branch keeping
the counts unchanged is unreachable on real matches (in Python an unknown key
would raise `KeyError`). -/
def bumpHorseman (h : HorsemenCounts) (name : String) : HorsemenCounts :=
  if name = "criticism" then { h with criticism := h.criticism + 1 }
  else if name = "contempt" then { h with contempt := h.contempt + 1 }
  else if name = "defensiveness" then { h with defensiveness := h.defensiveness + 1 }
  else if name = "stonewalling" then { h with stonewalling := h.stonewalling + 1 }
  else h

/-- Insertion-ordered dict bump, for `positive_counts[name] += 1`. -/
def bumpCount (l : List (String × ℕ)) (key : String) : List (String × ℕ) :=
  match l with
  | [] => [(key, 1)]
  | (k, v) :: rest =>
      if k = key then (k, v + 1) :: rest else (k, v) :: bumpCount rest key

/-- Alert record, restricted to the discriminating fields (the Python dicts
additionally carry fixed human-readable `message`/`recommendation`/`antidote`
strings that no verified logic reads).  The Python key `type` is rendered
`alert_type`. -/
structure Alert where
  alert_type : String
  severity : String
  horseman : Option String := none
  count : Option ℕ := none
deriving DecidableEq, Repr

/-- Embeds `pattern_detectors.PatternSummary`. -/
structure PatternSummary where
  total_positive : ℕ := 0
  total_negative : ℕ := 0
  positive_ratio : ℚ := 0
  four_horsemen_counts : HorsemenCounts := {}
  positive_counts : List (String × ℕ) := []
  alerts : List Alert := []
  «matches» : List PatternMatch := []
deriving DecidableEq, Repr

/-- Embeds `RelationshipPatternAnalyzer._generate_alerts`, with the loop over the
four-key dict unrolled in its fixed insertion order. -/
def generate_alerts (s : PatternSummary) : List Alert :=
  let ratio_alerts : List Alert :=
    if PatternSummary.positive_ratio s < 5 ∧ 0 < PatternSummary.total_negative s then
      [{ alert_type := "ratio_warning",
         severity := if PatternSummary.positive_ratio s < 3 then "high" else "medium" }]
    else []
  let horseman_alert (name : String) (c : ℕ) : List Alert :=
    if c ≥ 3 then
      [{ alert_type := "horseman_warning", horseman := some name,
         count := some c, severity := if c ≥ 5 then "high" else "medium" }]
    else []
  let hc := PatternSummary.four_horsemen_counts s
  let contempt_alerts : List Alert :=
    if HorsemenCounts.contempt hc ≥ 2 then
      [{ alert_type := "critical_warning", severity := "critical" }]
    else []
  ratio_alerts ++
  horseman_alert "criticism" (HorsemenCounts.criticism hc) ++
  horseman_alert "contempt" (HorsemenCounts.contempt hc) ++
  horseman_alert "defensiveness" (HorsemenCounts.defensiveness hc) ++
  horseman_alert "stonewalling" (HorsemenCounts.stonewalling hc) ++
  contempt_alerts

/-- Running state of the aggregation loop in `analyze_conversation`. -/
structure AggState where
  total_positive : ℕ := 0
  total_negative : ℕ := 0
  horsemen : HorsemenCounts := {}
  positive_counts : List (String × ℕ) := []
  «matches» : List PatternMatch := []
  in_conflict : Bool := false
  conflict_decay : ℕ := 0
deriving DecidableEq, Repr

/-- Folding one `PatternMatch` into the summary counters (the body of
`for match in matches` in `analyze_conversation`): a horseman match sets
`in_conflict` and resets the decay counter to 5. -/
def foldMatch (st : AggState) (m : PatternMatch) : AggState :=
  let st := { st with «matches» := st.«matches» ++ [m] }
  if PatternMatch.pattern_type m = "positive" then
    { st with total_positive := st.total_positive + 1,
              positive_counts := bumpCount st.positive_counts (PatternMatch.pattern_name m) }
  else
    let st := { st with total_negative := st.total_negative + 1 }
    match PatternMatch.horseman m with
    | some h =>
        { st with horsemen := bumpHorseman st.horsemen h,
                  in_conflict := true, conflict_decay := 5 }
    | none => st

/-- One iteration of the aggregation loop: skip empty/`'nan'` texts (the
`continue` also skips the decay step), analyze the message with the current
conflict context, fold the matches, then decay the conflict counter. -/
def processRow (llm : Option LLMOracle) (st : AggState)
    (msg : Msg) (prev : Option Msg) : AggState :=
  let text := Msg.message msg
  if text = "" ∨ text = "nan" then st
  else
    let response_time : Option ℚ :=
      match prev with
      | some p =>
          -- (timestamp - prev_time).total_seconds() / 60, as an exact rational
          some (Rat.divInt (Msg.datetime msg - Msg.datetime p) 60)
      | none => none
    let previous_message : Option String :=
      match prev with
      | some p => some (Msg.message p)
      | none => none
    let ms := analyze_message llm text response_time st.in_conflict
                previous_message none
    let st := ms.foldl foldMatch st
    if 0 < st.conflict_decay then
      let d := st.conflict_decay - 1
      { st with conflict_decay := d,
                in_conflict := if d = 0 then false else st.in_conflict }
    else st

/-- Pair each message with its predecessor (`shift(1)` on the sorted frame). -/
def withPrev : List Msg → Option Msg → List (Msg × Option Msg)
  | [], _ => []
  | m :: rest, prev => (m, prev) :: withPrev rest (some m)

/-- The rows of the sorted conversation, each with its previous row. -/
def conversationRows (msgs : List Msg) : List (Msg × Option Msg) :=
  withPrev (List.insertionSort (fun a b => Msg.datetime a ≤ Msg.datetime b) msgs) none

/-- The aggregation loop, also recording the `in_conflict` flag in effect
while each row is processed (the value passed as `is_after_conflict`). -/
def aggRun (llm : Option LLMOracle) (rows : List (Msg × Option Msg)) :
    AggState × List Bool :=
  rows.foldl
    (fun acc row =>
      (processRow llm acc.1 row.1 row.2, acc.2 ++ [AggState.in_conflict acc.1]))
    ({}, [])

/-- Embeds `RelationshipPatternAnalyzer.analyze_conversation`: run the loop, derive
the Gottman ratio, then generate alerts over the finished summary. -/
def analyze_conversation (llm : Option LLMOracle) (msgs : List Msg) :
    PatternSummary :=
  let st := (aggRun llm (conversationRows msgs)).1
  let ratio : ℚ :=
    if 0 < st.total_negative then (st.total_positive : ℚ) / (st.total_negative : ℚ)
    else if 0 < st.total_positive then (st.total_positive : ℚ)
    else 5
  let pre : PatternSummary :=
    { total_positive := st.total_positive, total_negative := st.total_negative,
      positive_ratio := ratio, four_horsemen_counts := st.horsemen,
      positive_counts := st.positive_counts, alerts := [], «matches» := st.«matches» }
  { pre with alerts := generate_alerts pre }

/-- The in-conflict flag observed while processing each message of the
(sorted) conversation, in order. -/
def inConflictTrace (llm : Option LLMOracle) (msgs : List Msg) : List Bool :=
  (aggRun llm (conversationRows msgs)).2

/-! ## ScientificHealthScorer (`scientific_scoring.py`)

Timestamps are modelled in seconds (`ℤ`); `timedelta(days=30)` is
`30 * 86400` seconds.  Scores are `ℚ`. -/

/-- Embeds `ScientificHealthScorer.SCORE_LABELS`, in the dict's insertion order. -/
def SCORE_LABELS : List ((ℚ × ℚ) × (String × String)) :=
  [ ((85, 100), ("Florescente", "Flourishing")),
    ((70, 84), ("Saudável", "Healthy")),
    ((55, 69), ("Estável", "Stable")),
    ((40, 54), ("Atenção", "Attention")),
    ((25, 39), ("Preocupante", "Concerning")),
    ((0, 24), ("Crítico", "Critical")) ]

/-- Embeds `ScientificHealthScorer._get_label`: first bucket with
`low <= score <= high`, else `('N/A', 'N/A')`. -/
def get_label (score : ℚ) : String × String :=
  match SCORE_LABELS.find? (fun e => decide (e.1.1 ≤ score ∧ score ≤ e.1.2)) with
  | some e => e.2
  | none => ("N/A", "N/A")

/-- Embeds `ScientificHealthScorer.DIMENSION_WEIGHTS` (v2.0). -/
def DIMENSION_WEIGHTS : List (String × ℚ) :=
  [ ("emotional_connection", 30/100),
    ("affection_commitment", 25/100),
    ("communication_health", 25/100),
    ("partnership_equity", 20/100) ]

/-- Dict lookup `DIMENSION_WEIGHTS[key]`. -/
def dimension_weight (key : String) : ℚ :=
  match DIMENSION_WEIGHTS.find? (fun e => e.1 = key) with
  | some e => e.2
  | none => 0

/-- Constant `SCORING_WINDOW_DAYS = 30`. -/
def SCORING_WINDOW_DAYS : ℤ := 30

/-- Maximum of the `datetime` column (`df[datetime_col].max()`), `none` on an
empty frame. -/
def maxTime : List Msg → Option ℤ
  | [] => none
  | m :: rest => some (rest.foldl (fun acc x => max acc (Msg.datetime x)) (Msg.datetime m))

/-- Embeds `ScientificHealthScorer._get_scoring_df`: the rows of the trailing
30-day window (`datetime >= max - timedelta(days=30)`).  On an empty frame
the pandas comparison against `NaT` keeps no rows. -/
def get_scoring_df (df : List Msg) : List Msg :=
  match maxTime df with
  | none => []
  | some now => df.filter (fun m => decide (now - SCORING_WINDOW_DAYS * 86400 ≤ Msg.datetime m))

/-- The four dimension scorers (`calculate_emotional_connection`,
`calculate_affection_commitment`, `calculate_communication_health`,
`calculate_partnership_equity`), abstracted as functions from the scoring
window to a 0-100 score; the claims under verification treat the dimension
scores as opaque inputs of the overall roll-up. -/
structure DimScorers where
  emotional_connection : List Msg → ℚ
  affection_commitment : List Msg → ℚ
  communication_health : List Msg → ℚ
  partnership_equity : List Msg → ℚ

/-- The weighted overall score computed at lines 1474-1479 of
`scientific_scoring.py` (local variable `overall_score`). -/
def overall_score_value (dims : DimScorers) (scoring_df : List Msg) : ℚ :=
  DimScorers.emotional_connection dims scoring_df * dimension_weight "emotional_connection" +
  DimScorers.affection_commitment dims scoring_df * dimension_weight "affection_commitment" +
  DimScorers.communication_health dims scoring_df * dimension_weight "communication_health" +
  DimScorers.partnership_equity dims scoring_df * dimension_weight "partnership_equity"

/-- The confidence step function of lines 1494-1504. -/
def confidence_for_window (window_messages : ℕ) : ℚ :=
  if window_messages ≥ 500 then 95/100
  else if window_messages ≥ 200 then 85/100
  else if window_messages ≥ 100 then 75/100
  else if window_messages ≥ 30 then 60/100
  else 40/100

/-- Embeds `scientific_scoring.HealthScoreResult`, restricted to the scalar fields
(the `dimensions`/`insights`/`alerts` payloads are not referenced by any
claim; on the sentinel path they are the dataclass defaults). -/
structure HealthScoreResult where
  overall : ℚ
  label : String
  label_en : String
  confidence : ℚ
  trend : String
deriving DecidableEq, Repr

/-- A raised Python exception. -/
inductive PyExc where
  | nameError (name : String)
deriving DecidableEq, Repr

/-- Embeds `ScientificHealthScorer.calculate_overall_score`.

The empty-window branch (lines 1458-1465) returns the sentinel
"Dados Insuficientes" result.  On a non-empty window the method computes
`overall_score` (see `overall_score_value`), looks up the labels and the
confidence, and then its `return` statement (line 1516) reads
`round(weighted_overall, 1)` — but no variable named `weighted_overall` is
ever assigned anywhere in the method or module, so the statement raises
`NameError: name 'weighted_overall' is not defined` after all the
intermediate values have been computed.  The embedding therefore returns
`Except.error` on that path. -/
def calculate_overall_score (dims : DimScorers) (df : List Msg) :
    Except PyExc HealthScoreResult :=
  let scoring_df := get_scoring_df df
  if scoring_df.length = 0 then
    .ok { overall := 50, label := "Dados Insuficientes",
          label_en := "Insufficient Data", confidence := 0, trend := "N/A" }
  else
    -- lines 1474-1513 compute, in order: overall_score, the labels,
    -- the confidence and the insight/alert payloads — none of which raises —
    -- and then line 1516 evaluates the undefined name `weighted_overall`:
    let _overall_score := overall_score_value dims scoring_df
    let _labels := get_label _overall_score
    let _confidence := confidence_for_window scoring_df.length
    .error (.nameError "weighted_overall")

/-! ## Spec-side definitions (used only in theorem statements) -/

/-- The six-bucket label scale exactly as the spec words it ("bucketed by
inclusive ranges 85-100, 70-84, 55-69, 40-54, 25-39, 0-24"), as a total map
on integer scores 0-100.  Used to compare `get_label` against the spec. -/
def spec_label_buckets (n : ℕ) : String × String :=
  if 85 ≤ n then ("Florescente", "Flourishing")
  else if 70 ≤ n then ("Saudável", "Healthy")
  else if 55 ≤ n then ("Estável", "Stable")
  else if 40 ≤ n then ("Atenção", "Attention")
  else if 25 ≤ n then ("Preocupante", "Concerning")
  else ("Crítico", "Critical")

/-- Rank of the six ordered buckets, from worst (0) to best (5), keyed by the
English label. -/
def label_rank (label_en : String) : ℕ :=
  if label_en = "Critical" then 0
  else if label_en = "Concerning" then 1
  else if label_en = "Attention" then 2
  else if label_en = "Stable" then 3
  else if label_en = "Healthy" then 4
  else if label_en = "Flourishing" then 5
  else 6

/-- The delayed-response-after-conflict branch of `detect_stonewalling`
(the only branch of the Four-Horsemen detectors that can fire on a message
with no text), used to state the empty-text behaviour of `analyze_message`. -/
def delay_stonewall_part (response_time_minutes : Option ℚ)
    (is_after_conflict : Bool) : List PatternMatch :=
  if is_after_conflict ∧ delayOver120 response_time_minutes then
    [{ pattern_type := "negative", pattern_name := "stonewalling",
       horseman := some "stonewalling", score_impact := -6 }]
  else []

/-- The Oracle-asserted contempt branch of `detect_contempt` (the only other
code path that can produce a match without any regex hit), used to state the
empty-text behaviour of `analyze_message`. -/
def oracle_contempt_part (llm : Option LLMOracle) (text : String)
    (context_str : String) : List PatternMatch :=
  match llm with
  | none => []
  | some o =>
      let r := LLMOracle.detect_contempt o text context_str
      if ContemptResult.is_contempt r ∧ ContemptResult.confidence r ≥ Rat.divInt 6 10 then
        [{ pattern_type := "negative", pattern_name := "contempt",
           horseman := some "contempt",
           score_impact := severity_scores (ContemptResult.severity r) }]
      else []

/-! ## Concrete test data -/

/-- A neutral message text that matches no pattern family. -/
def neutralText : String := "bom dia"

/-- The ten-message synthetic stream of the conflict-decay scenario: message 3
(1-indexed) is the only message matching a horseman family (contempt, via
"que piada"); messages are one minute apart. -/
def decayStream : List Msg :=
  [ { message := "oi", datetime := 0 },
    { message := "oi", datetime := 60 },
    { message := "que piada", datetime := 120 },
    { message := "oi", datetime := 180 },
    { message := "oi", datetime := 240 },
    { message := "oi", datetime := 300 },
    { message := "oi", datetime := 360 },
    { message := "oi", datetime := 420 },
    { message := "oi", datetime := 480 },
    { message := "oi", datetime := 540 } ]

/-- Seven messages matching only the affection family. -/
def sevenPositives : List Msg :=
  (List.range 7).map (fun i => { message := "te amo", datetime := 60 * (i : ℤ) })

/-- Six stonewalling messages ("tá") followed by three affection messages. -/
def threePosSixNeg : List Msg :=
  ((List.range 6).map (fun i => ({ message := "tá", datetime := 60 * (i : ℤ) } : Msg))) ++
  ((List.range 3).map (fun i => ({ message := "te amo", datetime := 360 + 60 * (i : ℤ) } : Msg)))

/-- Two messages matching only the affection family. -/
def twoPositives : List Msg :=
  [ { message := "te amo", datetime := 0 },
    { message := "te amo", datetime := 60 } ]

/-- A constant Oracle that judges every message as not-contempt, every repair
as genuine, and every response as not dismissive with neutral quality. -/
def neverDismissiveOracle : LLMOracle :=
  { detect_contempt := fun _ _ =>
      { is_contempt := false, confidence := 0, contempt_type := "none",
        severity := "mild" },
    validate_repair_attempt := fun _ _ =>
      { is_genuine := true, confidence := 1, responsibility_level := "full",
        has_blame_shifting := false },
    assess_response_quality := fun _ _ =>
      { overall_quality := 50, is_dismissive := false } }

/-- A constant Oracle that asserts severe contempt with confidence 0.8. -/
def severeContemptOracle : LLMOracle :=
  { detect_contempt := fun _ _ =>
      { is_contempt := true, confidence := Rat.divInt 8 10, contempt_type := "sarcasm",
        severity := "severe" },
    validate_repair_attempt := fun _ _ =>
      { is_genuine := true, confidence := 1, responsibility_level := "full",
        has_blame_shifting := false },
    assess_response_quality := fun _ _ =>
      { overall_quality := 50, is_dismissive := false } }

/-- Dimension scorers that return a constant 50 (used to witness the
non-empty-window behaviour of `calculate_overall_score`). -/
def constDims : DimScorers :=
  { emotional_connection := fun _ => 50,
    affection_commitment := fun _ => 50,
    communication_health := fun _ => 50,
    partnership_equity := fun _ => 50 }

/-- A one-message frame (its scoring window is trivially non-empty). -/
def oneMsgFrame : List Msg := [{ message := "oi", datetime := 0 }]

/-- The affection match produced for "te amo" (score +3). -/
def affectionMatch : PatternMatch :=
  { pattern_type := "positive", pattern_name := "affection",
    horseman := none, score_impact := 3 }

/-- The lexical stonewalling match produced for "tá" (score −6). -/
def stonewallMatch : PatternMatch :=
  { pattern_type := "negative", pattern_name := "stonewalling",
    horseman := some "stonewalling", score_impact := -6 }

/-- The regex-fallback contempt match (score −8). -/
def contemptMatch8 : PatternMatch :=
  { pattern_type := "negative", pattern_name := "contempt",
    horseman := some "contempt", score_impact := -8 }

/-! ## Helper lemmas -/

/-- Lemma: `_get_label` written as the nested conditional its dict iteration
performs, for symbolic reasoning about arbitrary rational scores. -/
lemma get_label_eq (s : ℚ) :
    get_label s =
      if 85 ≤ s ∧ s ≤ 100 then ("Florescente", "Flourishing")
      else if 70 ≤ s ∧ s ≤ 84 then ("Saudável", "Healthy")
      else if 55 ≤ s ∧ s ≤ 69 then ("Estável", "Stable")
      else if 40 ≤ s ∧ s ≤ 54 then ("Atenção", "Attention")
      else if 25 ≤ s ∧ s ≤ 39 then ("Preocupante", "Concerning")
      else if 0 ≤ s ∧ s ≤ 24 then ("Crítico", "Critical")
      else ("N/A", "N/A") := by
  by_cases h1 : 85 ≤ s ∧ s ≤ 100
  · simp [get_label, SCORE_LABELS, List.find?, ← Bool.decide_and, h1]
  by_cases h2 : 70 ≤ s ∧ s ≤ 84
  · simp [get_label, SCORE_LABELS, List.find?, ← Bool.decide_and, h1, h2]
  by_cases h3 : 55 ≤ s ∧ s ≤ 69
  · simp [get_label, SCORE_LABELS, List.find?, ← Bool.decide_and, h1, h2, h3]
  by_cases h4 : 40 ≤ s ∧ s ≤ 54
  · simp [get_label, SCORE_LABELS, List.find?, ← Bool.decide_and, h1, h2, h3, h4]
  by_cases h5 : 25 ≤ s ∧ s ≤ 39
  · simp [get_label, SCORE_LABELS, List.find?, ← Bool.decide_and, h1, h2, h3, h4, h5]
  by_cases h6 : 0 ≤ s ∧ s ≤ 24
  · simp [get_label, SCORE_LABELS, List.find?, ← Bool.decide_and, h1, h2, h3, h4, h5, h6]
  · simp [get_label, SCORE_LABELS, List.find?, ← Bool.decide_and, h1, h2, h3, h4, h5, h6]

/-- The buckets assigned by `spec_label_buckets` have the ranks their order
in the spec prescribes. -/
lemma label_rank_spec (n : ℕ) :
    label_rank (spec_label_buckets n).2 =
      if 85 ≤ n then 5 else if 70 ≤ n then 4 else if 55 ≤ n then 3
      else if 40 ≤ n then 2 else if 25 ≤ n then 1 else 0 := by
  by_cases c1 : 85 ≤ n
  · simp [spec_label_buckets, label_rank, c1]
  by_cases c2 : 70 ≤ n
  · simp [spec_label_buckets, label_rank, c1, c2]
  by_cases c3 : 55 ≤ n
  · simp [spec_label_buckets, label_rank, c1, c2, c3]
  by_cases c4 : 40 ≤ n
  · simp [spec_label_buckets, label_rank, c1, c2, c3, c4]
  by_cases c5 : 25 ≤ n
  · simp [spec_label_buckets, label_rank, c1, c2, c3, c4, c5]
  · simp [spec_label_buckets, label_rank, c1, c2, c3, c4, c5]

set_option maxRecDepth 16384 in
/-- Concrete run of the aggregation loop over the conflict-decay scenario
stream ("que piada" as message 3 among nine neutral "oi" messages). -/
lemma run_decayStream :
    aggRun none (conversationRows decayStream) =
      ({ total_positive := 0, total_negative := 1,
         horsemen := { contempt := 1 }, positive_counts := [],
         «matches» := [contemptMatch8], in_conflict := false, conflict_decay := 0 },
       [false, false, false, true, true, true, true, false, false, false]) := by
  decide

set_option maxRecDepth 16384 in
/-- Concrete run over seven affection-only messages. -/
lemma run_sevenPositives :
    aggRun none (conversationRows sevenPositives) =
      ({ total_positive := 7, total_negative := 0, horsemen := {},
         positive_counts := [("affection", 7)],
         «matches» := List.replicate 7 affectionMatch,
         in_conflict := false, conflict_decay := 0 },
       List.replicate 7 false) := by
  decide

set_option maxRecDepth 16384 in
/-- Concrete run over six stonewalling messages followed by three affection
messages. -/
lemma run_threePosSixNeg :
    aggRun none (conversationRows threePosSixNeg) =
      ({ total_positive := 3, total_negative := 6,
         horsemen := { stonewalling := 6 },
         positive_counts := [("affection", 3)],
         «matches» := List.replicate 6 stonewallMatch ++ List.replicate 3 affectionMatch,
         in_conflict := true, conflict_decay := 1 },
       false :: List.replicate 8 true) := by
  decide

set_option maxRecDepth 16384 in
/-- Concrete run over two affection-only messages. -/
lemma run_twoPositives :
    aggRun none (conversationRows twoPositives) =
      ({ total_positive := 2, total_negative := 0, horsemen := {},
         positive_counts := [("affection", 2)],
         «matches» := List.replicate 2 affectionMatch,
         in_conflict := false, conflict_decay := 0 },
       [false, false]) := by
  decide

/-- Membership in `Option.toList` is being that option's value. -/
lemma option_toList_eq {α : Type} {a : α} {o : Option α}
    (h : a ∈ Option.toList o) : o = some a := by
  cases o with
  | none => simp [Option.toList] at h
  | some b => simp only [Option.toList, List.mem_singleton] at h; rw [h]

/-- Any match returned by `detect_criticism` is the fixed −5 criticism
match. -/
lemma of_detect_criticism {text : String} {m : PatternMatch}
    (h : detect_criticism text = some m) :
    m = { pattern_type := "negative", pattern_name := "criticism",
          horseman := some "criticism", score_impact := -5 } := by
  unfold detect_criticism at h
  split at h
  · exact (Option.some.inj h).symm
  · exact absurd h (by simp)

/-- Lemma: `severity_scores` is always strictly negative. -/
lemma severity_scores_neg (s : String) : severity_scores s < 0 := by
  unfold severity_scores
  split_ifs <;> norm_num

/-- Any match returned by `detect_contempt` is a negative contempt match
with a strictly negative score. -/
lemma of_detect_contempt {llm : Option LLMOracle} {text context : String}
    {m : PatternMatch} (h : detect_contempt llm text context = some m) :
    PatternMatch.pattern_type m = "negative" ∧
    PatternMatch.pattern_name m = "contempt" ∧
    PatternMatch.horseman m = some "contempt" ∧
    PatternMatch.score_impact m < 0 := by
  unfold detect_contempt at h
  cases llm with
  | none =>
      simp only [] at h
      split at h
      · rw [← Option.some.inj h]; exact ⟨rfl, rfl, rfl, by norm_num⟩
      · exact absurd h (by simp)
  | some o =>
      simp only [] at h
      split_ifs at h
      · rw [← Option.some.inj h]; exact ⟨rfl, rfl, rfl, severity_scores_neg _⟩
      · rw [← Option.some.inj h]; exact ⟨rfl, rfl, rfl, by norm_num⟩

/-- Any match returned by `detect_defensiveness` is the fixed −4 match. -/
lemma of_detect_defensiveness {text : String} {m : PatternMatch}
    (h : detect_defensiveness text = some m) :
    m = { pattern_type := "negative", pattern_name := "defensiveness",
          horseman := some "defensiveness", score_impact := -4 } := by
  unfold detect_defensiveness at h
  split at h
  · exact (Option.some.inj h).symm
  · exact absurd h (by simp)

/-- Any match returned by `detect_stonewalling` is the fixed −6 match. -/
lemma of_detect_stonewalling {text : String} {rt : Option ℚ} {iac : Bool}
    {m : PatternMatch} (h : detect_stonewalling text rt iac = some m) :
    m = { pattern_type := "negative", pattern_name := "stonewalling",
          horseman := some "stonewalling", score_impact := -6 } := by
  unfold detect_stonewalling at h
  by_cases c1 : (STONEWALLING_PHRASES.any fun p => rxSearch p text) = true
  · rw [if_pos c1] at h
    exact (Option.some.inj h).symm
  · rw [if_neg c1] at h
    by_cases c2 : iac = true ∧ delayOver120 rt = true
    · rw [if_pos c2] at h
      exact (Option.some.inj h).symm
    · rw [if_neg c2] at h
      exact absurd h (by simp)

/-- Every Four-Horsemen match is negative, strictly negatively scored, and
carries one of the four fixed horseman tags as its pattern name and tag. -/
lemma gottman_inv {llm : Option LLMOracle} {text : String} {rt : Option ℚ}
    {iac : Bool} {context : String} {m : PatternMatch}
    (h : m ∈ gottman_detect_all llm text rt iac context) :
    PatternMatch.pattern_type m = "negative" ∧
    PatternMatch.score_impact m < 0 ∧
    (PatternMatch.horseman m = some "criticism" ∨
     PatternMatch.horseman m = some "contempt" ∨
     PatternMatch.horseman m = some "defensiveness" ∨
     PatternMatch.horseman m = some "stonewalling") ∧
    (PatternMatch.pattern_name m = "criticism" ∨
     PatternMatch.pattern_name m = "contempt" ∨
     PatternMatch.pattern_name m = "defensiveness" ∨
     PatternMatch.pattern_name m = "stonewalling") := by
  unfold gottman_detect_all at h
  simp only [List.mem_append] at h
  rcases h with ((h | h) | h) | h
  · rw [of_detect_criticism (option_toList_eq h)]
    exact ⟨rfl, by norm_num, Or.inl rfl, Or.inl rfl⟩
  · obtain ⟨h1, h2, h3, h4⟩ := of_detect_contempt (option_toList_eq h)
    exact ⟨h1, h4, Or.inr (Or.inl h3), Or.inr (Or.inl h2)⟩
  · rw [of_detect_defensiveness (option_toList_eq h)]
    exact ⟨rfl, by norm_num, Or.inr (Or.inr (Or.inl rfl)), Or.inr (Or.inr (Or.inl rfl))⟩
  · rw [of_detect_stonewalling (option_toList_eq h)]
    exact ⟨rfl, by norm_num, Or.inr (Or.inr (Or.inr rfl)), Or.inr (Or.inr (Or.inr rfl))⟩

/-- Any match returned by the generic positive-family scan is the fixed
positive match of that family. -/
lemma of_detect_pattern {pats : List Rx} {name : String} {score : Int}
    {text : String} {m : PatternMatch}
    (h : detect_pattern pats name score text = some m) :
    m = { pattern_type := "positive", pattern_name := name,
          horseman := none, score_impact := score } := by
  unfold detect_pattern at h
  split at h
  · exact (Option.some.inj h).symm
  · exact absurd h (by simp)

/-- Any match returned by `detect_repair_attempt` has no horseman tag, a
non-zero score, its type determined by the sign of its score, and one of the
two repair pattern names. -/
lemma of_detect_repair {llm : Option LLMOracle} {text context : String}
    {m : PatternMatch} (h : detect_repair_attempt llm text context = some m) :
    PatternMatch.horseman m = none ∧
    (PatternMatch.pattern_type m = "positive" ↔ 0 < PatternMatch.score_impact m) ∧
    (PatternMatch.pattern_type m = "negative" ↔ PatternMatch.score_impact m < 0) ∧
    (PatternMatch.pattern_name m = "repair_attempt" ∨
     PatternMatch.pattern_name m = "fake_repair") := by
  unfold detect_repair_attempt at h
  rcases hd : detect_pattern REPAIR_PATTERNS "repair_attempt" 5 text with _ | rm
  · rw [hd] at h; exact absurd h (by simp)
  · rw [hd] at h
    cases llm with
    | none =>
        simp only [Option.some.injEq] at h
        rw [← h, of_detect_pattern hd]
        exact ⟨rfl, by simp, by simp, Or.inl rfl⟩
    | some o =>
        simp only [Option.some.injEq] at h
        subst h
        refine ⟨rfl, ?_, ?_, ?_⟩ <;> (split_ifs <;> simp_all)

/-- Every positive-detector match has no horseman tag, type given by the sign
of its non-zero score, and one of the fixed positive family names. -/
lemma positive_inv {llm : Option LLMOracle} {text context : String}
    {m : PatternMatch} (h : m ∈ positive_detect_all llm text context) :
    PatternMatch.horseman m = none ∧
    (PatternMatch.pattern_type m = "positive" ↔ 0 < PatternMatch.score_impact m) ∧
    (PatternMatch.pattern_type m = "negative" ↔ PatternMatch.score_impact m < 0) ∧
    PatternMatch.pattern_name m ∈
      ["repair_attempt", "fake_repair", "affection", "gratitude", "support",
       "future_planning", "active_listening", "disclosure", "understanding",
       "assurance"] := by
  unfold positive_detect_all at h
  simp only [List.mem_append] at h
  rcases h with ((((((((h | h) | h) | h) | h) | h) | h) | h) | h)
  · obtain ⟨h1, h2, h3, h4⟩ := of_detect_repair (option_toList_eq h)
    refine ⟨h1, h2, h3, by rcases h4 with h4 | h4 <;> simp [h4]⟩
  all_goals
    rw [of_detect_pattern (option_toList_eq h)]
    exact ⟨rfl, by simp, by simp, by simp⟩

/-- Every match emitted by the dismissive-response check is the negative
`dismissive_response` match with score −2 or −3. -/
lemma dismissive_part_inv {llm : Option LLMOracle} {text : String}
    {prev : Option String} {m : PatternMatch}
    (h : m ∈ dismissive_part llm text prev) :
    PatternMatch.pattern_type m = "negative" ∧
    PatternMatch.pattern_name m = "dismissive_response" ∧
    PatternMatch.horseman m = none ∧
    PatternMatch.score_impact m < 0 := by
  cases prev with
  | none => simp [dismissive_part] at h
  | some p =>
      cases llm with
      | none =>
          simp only [dismissive_part] at h
          split at h
          · simp only [List.mem_singleton] at h
            rw [h]; exact ⟨rfl, rfl, rfl, by norm_num⟩
          · simp at h
      | some o =>
          simp only [dismissive_part] at h
          split at h
          · split at h
            · simp only [List.mem_singleton] at h
              rw [h]
              refine ⟨rfl, rfl, rfl, ?_⟩
              split_ifs <;> norm_num
            · simp at h
          · simp at h

/-- No pattern of any family matches the empty string (none of the compiled
regexes is nullable). -/
lemma no_family_matches_empty :
    (CRITICISM_PATTERNS ++ CONTEMPT_PATTERNS ++ DEFENSIVENESS_PATTERNS ++
     STONEWALLING_PHRASES ++ REPAIR_PATTERNS ++ AFFECTION_PATTERNS ++
     GRATITUDE_PATTERNS ++ SUPPORT_PATTERNS ++ FUTURE_PLANNING_PATTERNS ++
     ACTIVE_LISTENING_PATTERNS ++ DISCLOSURE_PATTERNS ++
     UNDERSTANDING_PATTERNS ++ ASSURANCE_PATTERNS ++
     EMOTIONAL_MARKERS).all (fun p => !rxSearch p "") = true := by
  decide

/-! ## Claim theorems -/

/-- Claim C2: If the trailing 30-day scoring window contains zero messages,
`calculate_overall_score` returns the sentinel result with `overall = 50.0`,
labels "Dados Insuficientes" / "Insufficient Data" and `confidence = 0.0`,
without raising (`Except.ok`), for every choice of dimension scorers. -/
theorem C2_empty_window_sentinel (dims : DimScorers) (df : List Msg)
    (h : get_scoring_df df = []) :
    calculate_overall_score dims df =
      .ok { overall := 50, label := "Dados Insuficientes",
            label_en := "Insufficient Data", confidence := 0, trend := "N/A" } := by
  unfold calculate_overall_score
  rw [h]
  rfl

/-- Witness for C2: the empty frame has an empty scoring window and yields the
sentinel result. -/
theorem C2_witness :
    calculate_overall_score constDims [] =
      .ok { overall := 50, label := "Dados Insuficientes",
            label_en := "Insufficient Data", confidence := 0, trend := "N/A" } :=
  C2_empty_window_sentinel constDims [] (by decide)

/-- Claim C1: (code bug) For every *non-empty* 30-day scoring window,
`calculate_overall_score` does **not** return a `HealthScoreResult`: its
`return` statement (line 1516 of `scientific_scoring.py`) reads the name
`weighted_overall`, which is assigned nowhere in the method, so the call
raises `NameError` after computing the weighted sum into the variable
`overall_score` (line 1474).  The fixed weights of the intended sum
(see `overall_score_value`) are 0.30/0.25/0.25/0.20 and sum to 1. -/
theorem C1_nonempty_window_raises_nameerror :
    (∀ (dims : DimScorers) (df : List Msg), get_scoring_df df ≠ [] →
      calculate_overall_score dims df = .error (.nameError "weighted_overall"))
    ∧ dimension_weight "emotional_connection" = 30/100
    ∧ dimension_weight "affection_commitment" = 25/100
    ∧ dimension_weight "communication_health" = 25/100
    ∧ dimension_weight "partnership_equity" = 20/100
    ∧ dimension_weight "emotional_connection" + dimension_weight "affection_commitment" +
      dimension_weight "communication_health" + dimension_weight "partnership_equity" = 1 := by
  have w1 : dimension_weight "emotional_connection" = 30/100 := by
    unfold dimension_weight DIMENSION_WEIGHTS; rfl
  have w2 : dimension_weight "affection_commitment" = 25/100 := by
    unfold dimension_weight DIMENSION_WEIGHTS; rfl
  have w3 : dimension_weight "communication_health" = 25/100 := by
    unfold dimension_weight DIMENSION_WEIGHTS; rfl
  have w4 : dimension_weight "partnership_equity" = 20/100 := by
    unfold dimension_weight DIMENSION_WEIGHTS; rfl
  refine ⟨?_, w1, w2, w3, w4, by rw [w1, w2, w3, w4]; norm_num⟩
  intro dims df h
  unfold calculate_overall_score
  rw [if_neg (by simpa [List.length_eq_zero] using h)]

/-- Witness for C1: a frame holding a single message has a non-empty scoring
window, and scoring it raises the `NameError`. -/
theorem C1_witness :
    calculate_overall_score constDims oneMsgFrame =
      .error (.nameError "weighted_overall") :=
  C1_nonempty_window_raises_nameerror.1 constDims oneMsgFrame (by decide)

/-- Claim C6 counterexample: The score-to-label mapping is *not* total on
`[0, 100]`: the score 84.5 lies in `[0, 100]` but falls in the gap between
the inclusive buckets 70-84 and 85-100, so `_get_label` returns the
`('N/A', 'N/A')` fallback, which is none of the six labels. -/
theorem C6_counterexample :
    get_label ((169 : ℚ) / 2) = ("N/A", "N/A")
    ∧ (0 : ℚ) ≤ (169 : ℚ) / 2 ∧ (169 : ℚ) / 2 ≤ 100
    ∧ SCORE_LABELS.all (fun e => !(e.2 == ("N/A", "N/A"))) = true := by
  refine ⟨?_, by norm_num, by norm_num, by rfl⟩
  rw [get_label_eq]
  norm_num

/-- Claim C6 amended: On *integer* scores the mapping is total and agrees
with the spec's six inclusive buckets, and it is monotonic: a lower integer
score never gets a better bucket.  (Non-integer scores inside the five unit
gaps (24,25), (39,40), (54,55), (69,70), (84,85) fall through to 'N/A', as
the counterexample shows.) -/
theorem C6_label_total_monotonic_on_integers :
    (∀ n : ℕ, n ≤ 100 → get_label (n : ℚ) = spec_label_buckets n)
    ∧ (∀ n m : ℕ, n ≤ 100 → m ≤ 100 → n ≤ m →
        label_rank (spec_label_buckets n).2 ≤ label_rank (spec_label_buckets m).2) := by
  constructor
  · intro n hn
    have e1 : ((85 : ℚ) ≤ (n : ℚ)) ↔ 85 ≤ n := by exact_mod_cast Iff.rfl
    have e2 : ((70 : ℚ) ≤ (n : ℚ)) ↔ 70 ≤ n := by exact_mod_cast Iff.rfl
    have e3 : ((55 : ℚ) ≤ (n : ℚ)) ↔ 55 ≤ n := by exact_mod_cast Iff.rfl
    have e4 : ((40 : ℚ) ≤ (n : ℚ)) ↔ 40 ≤ n := by exact_mod_cast Iff.rfl
    have e5 : ((25 : ℚ) ≤ (n : ℚ)) ↔ 25 ≤ n := by exact_mod_cast Iff.rfl
    have e6 : ((0 : ℚ) ≤ (n : ℚ)) ↔ 0 ≤ n := by exact_mod_cast Iff.rfl
    have f1 : ((n : ℚ) ≤ (100 : ℚ)) ↔ n ≤ 100 := by exact_mod_cast Iff.rfl
    have f2 : ((n : ℚ) ≤ (84 : ℚ)) ↔ n ≤ 84 := by exact_mod_cast Iff.rfl
    have f3 : ((n : ℚ) ≤ (69 : ℚ)) ↔ n ≤ 69 := by exact_mod_cast Iff.rfl
    have f4 : ((n : ℚ) ≤ (54 : ℚ)) ↔ n ≤ 54 := by exact_mod_cast Iff.rfl
    have f5 : ((n : ℚ) ≤ (39 : ℚ)) ↔ n ≤ 39 := by exact_mod_cast Iff.rfl
    have f6 : ((n : ℚ) ≤ (24 : ℚ)) ↔ n ≤ 24 := by exact_mod_cast Iff.rfl
    rw [get_label_eq]
    unfold spec_label_buckets
    simp only [e1, e2, e3, e4, e5, e6, f1, f2, f3, f4, f5, f6]
    split_ifs <;> first | rfl | (exfalso; omega)
  · intro n m _ _ hnm
    rw [label_rank_spec, label_rank_spec]
    split_ifs <;> omega

/-- Claim C3: `detect_contempt` with a configured Oracle resolves
regex/Oracle disagreement by the fixed confidence thresholds: an Oracle
contempt verdict with confidence ≥ 0.6 yields a negative contempt match
scored by severity (mild −5 / moderate −8 / severe −10), even with no regex
hit; an Oracle not-contempt verdict with confidence ≥ 0.7 suppresses a regex
hit; in every other case the regex result stands, scored −8. -/
theorem C3_contempt_reconciliation (o : LLMOracle) (text context : String) :
    (ContemptResult.is_contempt (LLMOracle.detect_contempt o text context) = true →
     ContemptResult.confidence (LLMOracle.detect_contempt o text context) ≥ 6/10 →
      detect_contempt (some o) text context =
        some { pattern_type := "negative", pattern_name := "contempt",
               horseman := some "contempt",
               score_impact := severity_scores
                 (ContemptResult.severity (LLMOracle.detect_contempt o text context)) })
    ∧ (contempt_regex_matched text = true →
       ContemptResult.is_contempt (LLMOracle.detect_contempt o text context) = false →
       ContemptResult.confidence (LLMOracle.detect_contempt o text context) ≥ 7/10 →
        detect_contempt (some o) text context = none)
    ∧ (¬ (ContemptResult.is_contempt (LLMOracle.detect_contempt o text context) = true ∧
          ContemptResult.confidence (LLMOracle.detect_contempt o text context) ≥ 6/10) →
       ¬ (contempt_regex_matched text = true ∧
          ContemptResult.is_contempt (LLMOracle.detect_contempt o text context) = false ∧
          ContemptResult.confidence (LLMOracle.detect_contempt o text context) ≥ 7/10) →
        detect_contempt (some o) text context =
          (if contempt_regex_matched text then
            some { pattern_type := "negative", pattern_name := "contempt",
                   horseman := some "contempt", score_impact := -8 }
          else none))
    ∧ severity_scores "mild" = -5 ∧ severity_scores "moderate" = -8
    ∧ severity_scores "severe" = -10 := by
  have hd6 : (Rat.divInt 6 10 : ℚ) = 6/10 := by norm_num [Rat.divInt_eq_div]
  have hd7 : (Rat.divInt 7 10 : ℚ) = 7/10 := by norm_num [Rat.divInt_eq_div]
  refine ⟨?_, ?_, ?_, rfl, rfl, rfl⟩
  · intro h1 h2
    simp only [detect_contempt, hd6, h1, true_and, ge_iff_le]
    rw [if_pos (by exact_mod_cast h2)]
  · intro hr h1 h2
    simp only [detect_contempt, hd6, hd7, h1, Bool.false_eq_true, false_and, if_false,
      Bool.not_eq_true, not_false_eq_true, true_and, and_true, ge_iff_le, hr]
    rw [if_pos (by exact_mod_cast h2)]
  · intro hn1 hn2
    rw [← hd6] at hn1
    rw [← hd7] at hn2
    simp only [detect_contempt]
    rw [if_neg (by simpa [ge_iff_le] using hn1),
        if_neg (by simpa [ge_iff_le, Bool.not_eq_true] using hn2)]

/-- Witness for C3: on a text with no regex hit, an Oracle asserting severe
contempt at confidence 0.8 produces the −10 contempt match. -/
theorem C3_witness :
    detect_contempt (some severeContemptOracle) "bom dia" "" =
      some { pattern_type := "negative", pattern_name := "contempt",
             horseman := some "contempt", score_impact := -10 } := by
  have h := (C3_contempt_reconciliation severeContemptOracle "bom dia" "").1 rfl
    (by norm_num [severeContemptOracle, LLMOracle.detect_contempt, Rat.divInt_eq_div])
  simpa [severeContemptOracle, LLMOracle.detect_contempt, severity_scores] using h

/-- Witness for C6: concrete integer scores on both sides of a bucket edge. -/
theorem C6_witness :
    get_label ((84 : ℕ) : ℚ) = spec_label_buckets 84
    ∧ get_label ((85 : ℕ) : ℚ) = spec_label_buckets 85
    ∧ label_rank (spec_label_buckets 30).2 ≤ label_rank (spec_label_buckets 90).2 :=
  ⟨C6_label_total_monotonic_on_integers.1 84 (by norm_num),
   C6_label_total_monotonic_on_integers.1 85 (by norm_num),
   C6_label_total_monotonic_on_integers.2 30 90 (by norm_num) (by norm_num) (by norm_num)⟩

/-- Claim C4 counterexample: In the aggregator's forward pass over the
10-message stream whose message 3 is the only one matching a horseman family
(one contempt match, per the horsemen counts below), the in-conflict flag is
true only while processing messages 4-7 (entries 4-7 of the trace) and is
already false at message 8 — not true through message 8 as the claim states:
the decay counter set to 5 at the match is decremented at the end of the
matching message itself, leaving a 4-message window. -/
theorem C4_counterexample :
    inConflictTrace none decayStream =
      [false, false, false, true, true, true, true, false, false, false]
    ∧ PatternSummary.four_horsemen_counts (analyze_conversation none decayStream) =
        { criticism := 0, contempt := 1, defensiveness := 0, stonewalling := 0 }
    ∧ PatternSummary.total_negative (analyze_conversation none decayStream) = 1 := by
  refine ⟨?_, ?_, ?_⟩ <;>
    simp [inConflictTrace, analyze_conversation, run_decayStream]

/-- Claim C4 amended: For the synthetic stream in which exactly message 3
yields a (contempt) horseman match and no other message yields any match at
all, the in-conflict flag is true while processing messages 4 through 7 and
false from message 8 on: matching a horseman sets the flag and resets the
decay counter to 5, and the counter is decremented after *every* processed
message — including the one that matched — clearing the flag when it reaches
0, so exactly the 4 messages after the match see the conflict context. -/
theorem C4_conflict_decay_window :
    (∀ b : Bool, analyze_message none "que piada" (some 1) b (some "oi") none =
      [contemptMatch8])
    ∧ (∀ b : Bool, analyze_message none "oi" (some 1) b (some "oi") none = [])
    ∧ (∀ b : Bool, analyze_message none "oi" (some 1) b (some "que piada") none = [])
    ∧ ((inConflictTrace none decayStream)[3]? = some true
       ∧ (inConflictTrace none decayStream)[4]? = some true
       ∧ (inConflictTrace none decayStream)[5]? = some true
       ∧ (inConflictTrace none decayStream)[6]? = some true)
    ∧ ((inConflictTrace none decayStream)[7]? = some false
       ∧ (inConflictTrace none decayStream)[8]? = some false
       ∧ (inConflictTrace none decayStream)[9]? = some false) := by
  refine ⟨fun b => by cases b <;> decide, fun b => by cases b <;> decide,
          fun b => by cases b <;> decide, ?_, ?_⟩ <;>
    simp [inConflictTrace, run_decayStream]

/-- Claim C5: The positive:negative ratio computed by `analyze_conversation`
equals `total_positive / total_negative` when `total_negative > 0`, the bare
(uncapped) `total_positive` when `total_negative = 0 < total_positive`, and
the fixed default 5.0 when both counts are 0; in particular the three spec
instances ratio(0,0) = 5, ratio(7,0) = 7 and ratio(3,6) = 0.5 are realised by
concrete conversations with those totals. -/
theorem C5_positive_ratio_formula :
    (∀ (llm : Option LLMOracle) (msgs : List Msg),
      PatternSummary.positive_ratio (analyze_conversation llm msgs) =
        (if 0 < PatternSummary.total_negative (analyze_conversation llm msgs) then
          (PatternSummary.total_positive (analyze_conversation llm msgs) : ℚ) /
            (PatternSummary.total_negative (analyze_conversation llm msgs) : ℚ)
         else if 0 < PatternSummary.total_positive (analyze_conversation llm msgs) then
          (PatternSummary.total_positive (analyze_conversation llm msgs) : ℚ)
         else 5))
    ∧ (PatternSummary.total_positive (analyze_conversation none ([] : List Msg)) = 0
       ∧ PatternSummary.total_negative (analyze_conversation none ([] : List Msg)) = 0
       ∧ PatternSummary.positive_ratio (analyze_conversation none ([] : List Msg)) = 5)
    ∧ (PatternSummary.total_positive (analyze_conversation none sevenPositives) = 7
       ∧ PatternSummary.total_negative (analyze_conversation none sevenPositives) = 0
       ∧ PatternSummary.positive_ratio (analyze_conversation none sevenPositives) = 7)
    ∧ (PatternSummary.total_positive (analyze_conversation none threePosSixNeg) = 3
       ∧ PatternSummary.total_negative (analyze_conversation none threePosSixNeg) = 6
       ∧ PatternSummary.positive_ratio (analyze_conversation none threePosSixNeg) = 1/2) := by
  refine ⟨fun llm msgs => rfl, ⟨rfl, rfl, rfl⟩, ?_, ?_⟩
  · refine ⟨?_, ?_, ?_⟩ <;> norm_num [analyze_conversation, run_sevenPositives]
  · refine ⟨?_, ?_, ?_⟩ <;> norm_num [analyze_conversation, run_threePosSixNeg]

/-- Claim C7 counterexample: A finished summary with two positive matches and
no negative match has `positive_ratio = 2 < 5.0`, yet `_generate_alerts`
emits *no* ratio-warning (nor any other alert): the ratio rule additionally
requires `total_negative > 0`, which the claim omits. -/
theorem C7_counterexample :
    PatternSummary.positive_ratio (analyze_conversation none twoPositives) = 2
    ∧ PatternSummary.positive_ratio (analyze_conversation none twoPositives) < 5
    ∧ PatternSummary.total_negative (analyze_conversation none twoPositives) = 0
    ∧ PatternSummary.alerts (analyze_conversation none twoPositives) = [] := by
  refine ⟨?_, ?_, ?_, ?_⟩ <;>
    norm_num [analyze_conversation, run_twoPositives, generate_alerts]

/-- Claim C7 amended: Over every finished `PatternSummary`, `_generate_alerts`
emits the ratio-warning exactly when `positive_ratio < 5.0` **and**
`total_negative > 0` (severity "high" if the ratio is < 3.0, else "medium");
it emits one horseman-warning per horseman whose count is ≥ 3 (carrying the
count, severity "high" from 5 up); and it emits the one critical-severity
alert exactly when the contempt count is ≥ 2, regardless of the other
alerts.  Stated as equalities on the alert list filtered by alert type. -/
theorem C7_alert_rules (s : PatternSummary) :
    (generate_alerts s).filter (fun a => Alert.alert_type a == "ratio_warning") =
      (if PatternSummary.positive_ratio s < 5 ∧ 0 < PatternSummary.total_negative s then
        [{ alert_type := "ratio_warning",
           severity := if PatternSummary.positive_ratio s < 3 then "high" else "medium" }]
       else [])
    ∧ (generate_alerts s).filter (fun a => Alert.alert_type a == "horseman_warning") =
      ((if HorsemenCounts.criticism (PatternSummary.four_horsemen_counts s) ≥ 3 then
          [{ alert_type := "horseman_warning", horseman := some "criticism",
             count := some (HorsemenCounts.criticism (PatternSummary.four_horsemen_counts s)),
             severity :=
               if HorsemenCounts.criticism (PatternSummary.four_horsemen_counts s) ≥ 5
               then "high" else "medium" }]
        else []) ++
       (if HorsemenCounts.contempt (PatternSummary.four_horsemen_counts s) ≥ 3 then
          [{ alert_type := "horseman_warning", horseman := some "contempt",
             count := some (HorsemenCounts.contempt (PatternSummary.four_horsemen_counts s)),
             severity :=
               if HorsemenCounts.contempt (PatternSummary.four_horsemen_counts s) ≥ 5
               then "high" else "medium" }]
        else []) ++
       (if HorsemenCounts.defensiveness (PatternSummary.four_horsemen_counts s) ≥ 3 then
          [{ alert_type := "horseman_warning", horseman := some "defensiveness",
             count := some (HorsemenCounts.defensiveness (PatternSummary.four_horsemen_counts s)),
             severity :=
               if HorsemenCounts.defensiveness (PatternSummary.four_horsemen_counts s) ≥ 5
               then "high" else "medium" }]
        else []) ++
       (if HorsemenCounts.stonewalling (PatternSummary.four_horsemen_counts s) ≥ 3 then
          [{ alert_type := "horseman_warning", horseman := some "stonewalling",
             count := some (HorsemenCounts.stonewalling (PatternSummary.four_horsemen_counts s)),
             severity :=
               if HorsemenCounts.stonewalling (PatternSummary.four_horsemen_counts s) ≥ 5
               then "high" else "medium" }]
        else []))
    ∧ (generate_alerts s).filter (fun a => Alert.alert_type a == "critical_warning") =
      (if HorsemenCounts.contempt (PatternSummary.four_horsemen_counts s) ≥ 2 then
        [{ alert_type := "critical_warning", severity := "critical" }]
       else []) := by
  refine ⟨?_, ?_, ?_⟩
  · unfold generate_alerts
    simp [List.filter_append,
      apply_ite (List.filter (fun a => Alert.alert_type a == "ratio_warning")),
      List.filter]
  · unfold generate_alerts
    simp [List.filter_append,
      apply_ite (List.filter (fun a => Alert.alert_type a == "horseman_warning")),
      List.filter]
  · unfold generate_alerts
    simp [List.filter_append,
      apply_ite (List.filter (fun a => Alert.alert_type a == "critical_warning")),
      List.filter]

/-- Claim C8 counterexample: With an Oracle whose response-quality judgment
reports `is_dismissive = False`, `analyze_message` emits *no*
`dismissive_response` match even though the previous message matches the
emotional-content heuristic and the current message is minimal — so the
claimed "exactly when" emission condition fails once an Oracle is
configured. -/
theorem C8_counterexample :
    is_emotional_message "estou triste" = true
    ∧ is_dismissive_response "ok" = true
    ∧ (analyze_message (some neverDismissiveOracle) "ok" none false
         (some "estou triste") none).filter
        (fun m => PatternMatch.pattern_name m == "dismissive_response") = [] := by
  refine ⟨by decide, by decide, by decide⟩

/-- Claim C8 amended: The `dismissive_response` matches of `analyze_message`
are exactly `dismissive_part` — independent of response time, conflict
context and Oracle context, and no other detector ever emits that pattern
name.  Without an Oracle the check emits one −2 match exactly when the
previous message is non-empty and emotional and the current text is minimal;
with an Oracle the emission is additionally gated on the Oracle's
`is_dismissive` response-quality verdict and the score is −3 when the
Oracle's `overall_quality` is below 30, −2 otherwise; with no previous
message nothing is emitted. -/
theorem C8_dismissive_emission :
    (∀ (llm : Option LLMOracle) (text : String) (rt : Option ℚ) (iac : Bool)
       (prev : Option String) (ctx : Option (List String)),
      (analyze_message llm text rt iac prev ctx).filter
        (fun m => PatternMatch.pattern_name m == "dismissive_response") =
        dismissive_part llm text prev)
    ∧ (∀ (text p : String),
        dismissive_part none text (some p) =
          (if ¬ p = "" ∧ is_emotional_message p ∧ is_dismissive_response text then
            [{ pattern_type := "negative", pattern_name := "dismissive_response",
               horseman := none, score_impact := -2 }]
           else []))
    ∧ (∀ (o : LLMOracle) (text p : String),
        dismissive_part (some o) text (some p) =
          (if (¬ p = "" ∧ is_emotional_message p ∧ is_dismissive_response text) ∧
              ResponseQuality.is_dismissive (LLMOracle.assess_response_quality o p text) then
            [{ pattern_type := "negative", pattern_name := "dismissive_response",
               horseman := none,
               score_impact :=
                 if ResponseQuality.overall_quality
                      (LLMOracle.assess_response_quality o p text) < 30
                 then -3 else -2 }]
           else []))
    ∧ (∀ (llm : Option LLMOracle) (text : String),
        dismissive_part llm text none = []) := by
  refine ⟨?_, ?_, ?_, ?_⟩
  · intro llm text rt iac prev ctx
    unfold analyze_message
    rw [List.filter_append, List.filter_append]
    have hg : (gottman_detect_all llm text rt iac
        (context_string prev ctx)).filter
        (fun m => PatternMatch.pattern_name m == "dismissive_response") = [] := by
      rw [List.filter_eq_nil_iff]
      intro m hm
      obtain ⟨-, -, -, hname⟩ := gottman_inv hm
      rcases hname with h | h | h | h <;> simp [h]
    have hp : (positive_detect_all llm text
        (context_string prev ctx)).filter
        (fun m => PatternMatch.pattern_name m == "dismissive_response") = [] := by
      rw [List.filter_eq_nil_iff]
      intro m hm
      obtain ⟨-, -, -, hname⟩ := positive_inv hm
      simp only [List.mem_cons, List.not_mem_nil, or_false] at hname
      rcases hname with h | h | h | h | h | h | h | h | h | h <;> simp [h]
    have hd : (dismissive_part llm text prev).filter
        (fun m => PatternMatch.pattern_name m == "dismissive_response") =
        dismissive_part llm text prev := by
      rw [List.filter_eq_self]
      intro m hm
      obtain ⟨-, hname, -, -⟩ := dismissive_part_inv hm
      simp [hname]
    rw [hg, hp, hd, List.nil_append, List.nil_append]
  · intro text p
    rfl
  · intro o text p
    simp only [dismissive_part]
    split_ifs <;> simp_all
  · intro llm text
    rfl

/-- Claim C9 counterexample: A message with *empty* text still produces a
`PatternMatch` for some input combinations: after a conflict, with a response
delay over 120 minutes, the delayed-response branch of `detect_stonewalling`
fires without inspecting the text at all. -/
theorem C9_counterexample :
    analyze_message none "" (some 121) true none none =
      [{ pattern_type := "negative", pattern_name := "stonewalling",
         horseman := some "stonewalling", score_impact := -6 }] := by
  decide

/-- Claim C9 amended: Empty text never matches any lexical pattern: the
matches of `analyze_message` on `""` are exactly the non-lexical paths — an
Oracle-asserted contempt match (Oracle configured, contempt verdict at
confidence ≥ 0.6), the delayed-response stonewalling signal (after conflict
with a delay > 120 minutes), and the dismissive-response flag (emotional
previous message; empty text counts as minimal), in this order.  With no
Oracle, no conflict-delay and no emotional previous message, the result is
the empty list. -/
theorem C9_empty_text_matches (llm : Option LLMOracle) (rt : Option ℚ)
    (iac : Bool) (prev : Option String) (ctx : Option (List String)) :
    analyze_message llm "" rt iac prev ctx =
      oracle_contempt_part llm "" (context_string prev ctx) ++
      delay_stonewall_part rt iac ++
      dismissive_part llm "" prev := by
  have hstone : ∀ (rt' : Option ℚ) (iac' : Bool),
      (detect_stonewalling "" rt' iac').toList = delay_stonewall_part rt' iac' := by
    intro rt' iac'
    unfold detect_stonewalling delay_stonewall_part
    rw [if_neg (show ¬ (STONEWALLING_PHRASES.any fun p => rxSearch p "") = true
          from by decide)]
    split_ifs <;> rfl
  have hcont : ∀ (l : Option LLMOracle) (c : String),
      (detect_contempt l "" c).toList = oracle_contempt_part l "" c := by
    intro l c
    cases l with
    | none =>
        unfold detect_contempt oracle_contempt_part
        simp [show contempt_regex_matched "" = false from by decide]
    | some o =>
        unfold detect_contempt oracle_contempt_part
        simp only [show contempt_regex_matched "" = false from by decide,
          Bool.false_eq_true, false_and, if_false]
        split_ifs <;> rfl
  have hrep : ∀ (l : Option LLMOracle) (c : String),
      detect_repair_attempt l "" c = none := by
    intro l c
    unfold detect_repair_attempt
    rw [show detect_pattern REPAIR_PATTERNS "repair_attempt" 5 "" = none
          from by decide]
  unfold analyze_message gottman_detect_all positive_detect_all
  simp only [show detect_criticism "" = none from by decide,
    show detect_defensiveness "" = none from by decide,
    hrep, hstone, hcont,
    show detect_pattern AFFECTION_PATTERNS "affection" 3 "" = none from by decide,
    show detect_pattern GRATITUDE_PATTERNS "gratitude" 3 "" = none from by decide,
    show detect_pattern SUPPORT_PATTERNS "support" 4 "" = none from by decide,
    show detect_pattern FUTURE_PLANNING_PATTERNS "future_planning" 3 "" = none
      from by decide,
    show detect_pattern ACTIVE_LISTENING_PATTERNS "active_listening" 4 "" = none
      from by decide,
    show detect_pattern DISCLOSURE_PATTERNS "disclosure" 4 "" = none from by decide,
    show detect_pattern UNDERSTANDING_PATTERNS "understanding" 3 "" = none
      from by decide,
    show detect_pattern ASSURANCE_PATTERNS "assurance" 4 "" = none from by decide,
    show (none : Option PatternMatch).toList = [] from rfl,
    List.nil_append, List.append_nil, List.append_assoc]

/-- Claim C10: Every `PatternMatch` produced by `analyze_message` — with or
without an Oracle — satisfies the sign/tag invariant: the type is
`'positive'` exactly when the score impact is positive and `'negative'`
exactly when it is negative, and the horseman field is set only on negative
matches and only to one of the four fixed horseman names. -/
theorem C10_match_invariants (llm : Option LLMOracle) (text : String)
    (rt : Option ℚ) (iac : Bool) (prev : Option String)
    (ctx : Option (List String)) (m : PatternMatch)
    (h : m ∈ analyze_message llm text rt iac prev ctx) :
    (PatternMatch.pattern_type m = "positive" ↔ 0 < PatternMatch.score_impact m)
    ∧ (PatternMatch.pattern_type m = "negative" ↔ PatternMatch.score_impact m < 0)
    ∧ (¬ PatternMatch.horseman m = none →
        PatternMatch.pattern_type m = "negative" ∧
        (PatternMatch.horseman m = some "criticism" ∨
         PatternMatch.horseman m = some "contempt" ∨
         PatternMatch.horseman m = some "defensiveness" ∨
         PatternMatch.horseman m = some "stonewalling")) := by
  unfold analyze_message at h
  simp only [List.mem_append] at h
  rcases h with (h | h) | h
  · obtain ⟨ht, hs, hh, -⟩ := gottman_inv h
    refine ⟨⟨fun hp => absurd (ht.symm.trans hp) (by simp),
             fun hpos => absurd hpos (by omega)⟩,
            ⟨fun _ => hs, fun _ => ht⟩,
            fun _ => ⟨ht, hh⟩⟩
  · obtain ⟨hh, hiff1, hiff2, -⟩ := positive_inv h
    exact ⟨hiff1, hiff2, fun hcon => absurd hh hcon⟩
  · obtain ⟨ht, -, hh, hs⟩ := dismissive_part_inv h
    refine ⟨⟨fun hp => absurd (ht.symm.trans hp) (by simp),
             fun hpos => absurd hpos (by omega)⟩,
            ⟨fun _ => hs, fun _ => ht⟩,
            fun hcon => absurd hh hcon⟩

/-- Witness for C10: the affection match of "te amo" satisfies the
invariant. -/
theorem C10_witness :
    (PatternMatch.pattern_type affectionMatch = "positive" ↔
      0 < PatternMatch.score_impact affectionMatch)
    ∧ (PatternMatch.pattern_type affectionMatch = "negative" ↔
      PatternMatch.score_impact affectionMatch < 0)
    ∧ (¬ PatternMatch.horseman affectionMatch = none →
        PatternMatch.pattern_type affectionMatch = "negative" ∧
        (PatternMatch.horseman affectionMatch = some "criticism" ∨
         PatternMatch.horseman affectionMatch = some "contempt" ∨
         PatternMatch.horseman affectionMatch = some "defensiveness" ∨
         PatternMatch.horseman affectionMatch = some "stonewalling")) :=
  C10_match_invariants none "te amo" none false none none affectionMatch (by decide)

end Navi

